import Mathlib

/-! Shallow embedding of the aggregation core of `app.py` — a pandas/Dash
climate dashboard.  It covers the data loader (`load_data`) and the four
pure aggregation functions (`calculate_anomalies`, `calculate_hw_monthly`,
`dias_ondas_calor`, `prepare_heatmap_data`), together with theorems
checking the specification's claims about them. -/

namespace Dashboard

/-- A calendar date.  The month is kept as `Fin 12` (0-based, so the month
number is `m.val + 1`): a parsed pandas datetime always carries a valid
month. -/
structure Date where
  y : Int
  m : Fin 12
  d : Nat
  deriving DecidableEq

/-- A parsed timestamp: a calendar date plus a time of day (seconds). -/
structure DateTime where
  date : Date
  sec : Nat
  deriving DecidableEq

/-- A raw cell value as pandas hands it to Python code: the heat-wave flag
column may hold strings, booleans, integers or a missing value. -/
inductive PyVal where
  | str (s : String)
  | bool (b : Bool)
  | int (n : Int)
  | nan
  deriving DecidableEq

/-- Python `str(x)` on such a cell. -/
def PyVal.toStr : PyVal → String
  | .str s => s
  | .bool b => if b then "True" else "False"
  | .int n => toString n
  | .nan => "nan"

/-- Python `str.upper()` (character-wise ASCII uppercasing; the flag
values occurring in the data are ASCII). -/
def strUpper (s : String) : String := ⟨s.data.map Char.toUpper⟩

/-- One raw spreadsheet row (the output of `pd.read_excel`), before the
loader's normalisation.  The `index` (timestamp) cell is recorded by its
parse result: `some t` when `pd.to_datetime` can parse it, `none` when it
is unparseable (`errors="coerce"` turns it into `NaT` instead of
raising). -/
structure RawRow where
  index : Option DateTime
  cidade : String
  tempMax : ℚ := 0
  tempMed : ℚ := 0
  tempMin : ℚ := 0
  isHW : PyVal
  lat : ℚ := 0
  long : ℚ := 0
  deriving DecidableEq

/-- One row of the loaded Observation Table. -/
structure Row where
  timestamp : Option DateTime
  cidade : String
  tempMax : ℚ := 0
  tempMed : ℚ := 0
  tempMin : ℚ := 0
  isHW : String
  lat : ℚ := 0
  long : ℚ := 0
  deriving DecidableEq

/-- `df["year"] = df["index"].dt.year` (app.py line 21): a missing
timestamp gives a missing year. -/
def rowYear (r : Row) : Option Int := r.timestamp.map fun t => t.date.y

/-- `df["month"] = df["index"].dt.month` (app.py line 22). -/
def rowMonth (r : Row) : Option (Fin 12) := r.timestamp.map fun t => t.date.m

/-- The per-row normalisation done by `load_data` (app.py lines 19-20):
the timestamp keeps its parse result and `isHW` becomes
`str(x).upper()`. -/
def loadRow (r : RawRow) : Row :=
  { timestamp := r.index, cidade := r.cidade, tempMax := r.tempMax,
    tempMed := r.tempMed, tempMin := r.tempMin,
    isHW := strUpper r.isHW.toStr, lat := r.lat, long := r.long }

/-- `load_data` (app.py lines 17-23).  The resource is `none` when the
spreadsheet cannot be read (`pd.read_excel` raises there, and the
exception escapes `load_data` as a startup error).  Note that the function
performs no emptiness check on the rows it read. -/
def load_data (resource : Option (List RawRow)) : Except String (List Row) :=
  match resource with
  | none => Except.error "read_excel failed"
  | some rows => Except.ok (rows.map loadRow)

/-- `df["isHW"] == "TRUE"` — the heat-wave row test every aggregation
filters on. -/
def isHWRow (r : Row) : Bool := r.isHW == "TRUE"

/-- `(df["year"] >= a) & (df["year"] <= b)`: a missing year compares
`False` in pandas. -/
def yearInRange (r : Row) (a b : Int) : Bool :=
  match rowYear r with
  | some y => decide (a ≤ y) && decide (y ≤ b)
  | none => false

/-- `df["year"] == ano`: a missing year compares `False`. -/
def yearEq (r : Row) (ano : Int) : Bool :=
  match rowYear r with
  | some y => y == ano
  | none => false

/-- `Series.mean()` over rationals (the undefined mean of an empty series
is modelled by the convention `0 / 0 = 0`). -/
def mean (l : List ℚ) : ℚ := l.sum / l.length

/-- `sorted(unique(...))` — also the ascending key order produced by a
pandas `groupby`. -/
def sortedUnique {α : Type} [LinearOrder α] (l : List α) : List α :=
  List.insertionSort (fun a b => a ≤ b) l.dedup

/-- One output row of `calculate_anomalies` (columns `year`, `tempMed`,
`anomalia`). -/
structure AnomaliaRecord where
  year : Int
  tempMed : ℚ
  anomalia : ℚ
  deriving DecidableEq

/-- `calculate_anomalies` (app.py lines 30-35): filter to the city and the
inclusive year range, `baseline` = mean of `tempMed` over the whole
filtered subset, then one output row per year of the subset (the ascending
key order of `groupby("year")`), holding the year's mean of `tempMed` and
its anomaly (that mean minus the baseline). -/
def calculate_anomalies (df : List Row) (cidade : String)
    (ano_inicio ano_fim : Int) : List AnomaliaRecord :=
  let dff := df.filter fun r =>
    r.cidade == cidade && yearInRange r ano_inicio ano_fim
  let baseline := mean (dff.map fun r => r.tempMed)
  (sortedUnique (dff.filterMap rowYear)).map fun y =>
    let m := mean ((dff.filter fun r => yearEq r y).map fun r => r.tempMed)
    { year := y, tempMed := m, anomalia := m - baseline }

/-- The fixed English month-name list (app.py lines 41-44). -/
def all_months : List String :=
  ["January", "February", "March", "April", "May", "June",
   "July", "August", "September", "October", "November", "December"]

/-- `strftime("%B")` — the English month name of a row's timestamp (`""`
for a missing timestamp, which the year filter has already excluded). -/
def rowMonthName (r : Row) : String :=
  match r.timestamp with
  | some t => all_months.get ⟨t.date.m.val, t.date.m.isLt⟩
  | none => ""

/-- One output row of `calculate_hw_monthly` (columns `mes`,
`frequencia`). -/
structure MonthCount where
  mes : String
  frequencia : Nat
  deriving DecidableEq

/-- `calculate_hw_monthly` (app.py lines 37-48): filter to city, year and
heat-wave rows, count rows per English month name
(`groupby("mes").size()`), and left-merge the counts onto the fixed month
list, so the output has one record per month in calendar order, with count
0 where the group is absent. -/
def calculate_hw_monthly (df : List Row) (cidade : String) (ano : Int) :
    List MonthCount :=
  let dff := df.filter fun r =>
    r.cidade == cidade && yearEq r ano && isHWRow r
  all_months.map fun m =>
    { mes := m, frequencia := (dff.filter fun r => rowMonthName r == m).length }

/-- `.dt.date` — the date component of a (possibly missing) timestamp,
dropping the time of day. -/
def dtDate (r : Row) : Option Date := r.timestamp.map fun t => t.date

/-- `dias_ondas_calor` (app.py lines 50-51): the `.dt.date` of every row
of the city whose heat-wave flag is `"TRUE"`, in table order.  The filter
never looks at the timestamp, so a row with a missing timestamp yields a
missing (`NaT`) entry in the result. -/
def dias_ondas_calor (df : List Row) (cidade : String) : List (Option Date) :=
  (df.filter fun r => r.cidade == cidade && isHWRow r).map dtDate

/-- The module-level `cidades = sorted(df["cidade"].unique())`
(app.py line 26), computed from the loaded table. -/
def cidadesOf (df : List Row) : List String :=
  sortedUnique (df.map fun r => r.cidade)

/-- The module-level `anos = sorted(df["year"].unique())` (app.py
line 27), restricted to the rows whose timestamp parsed. -/
def anosOf (df : List Row) : List Int := sortedUnique (df.filterMap rowYear)

/-- Python `range(s, s + n)` over integers. -/
def intRange (s : Int) : Nat → List Int
  | 0 => []
  | n + 1 => s :: intRange (s + 1) n

/-- `range(1981, 2024)` (app.py line 55), as integers. -/
def spanYears : List Int := intRange 1981 43

/-- `pd.MultiIndex.from_product([cidades, range(1981, 2024)])` — the full
cross product, city-major. -/
def allPairs (cs : List String) (ys : List Int) : List (String × Int) :=
  match cs with
  | [] => []
  | c :: rest => (ys.map fun y => (c, y)) ++ allPairs rest ys

/-- One cell of the heatmap grid (columns `cidade`, `year`, `dias_hw`). -/
structure HeatCell where
  cidade : String
  year : Int
  dias_hw : Nat
  deriving DecidableEq

/-- `prepare_heatmap_data` (app.py lines 53-57): count heat-wave rows per
(city, year) (`df[df["isHW"] == "TRUE"].groupby(["cidade", "year"]).size()`)
and left-merge the counts onto the full cross product
`cidades × range(1981, 2024)`, with count 0 where the group is absent. -/
def prepare_heatmap_data (df : List Row) : List HeatCell :=
  (allPairs (cidadesOf df) spanYears).map fun p =>
    { cidade := p.1, year := p.2,
      dias_hw := ((df.filter fun r => isHWRow r).filter fun r =>
        r.cidade == p.1 && yearEq r p.2).length }

/-- The layout's `min(anos)` / `max(anos)` (app.py lines 77-78): Python
`min`/`max` raise on an empty sequence, modelled as `none`. -/
def sliderBounds (anos : List Int) : Option (Int × Int) :=
  match anos.min?, anos.max? with
  | some a, some b => some (a, b)
  | _, _ => none

/-- Builder for example rows: a parsed timestamp at midnight. -/
def exRow (y : Int) (m : Fin 12) (d : Nat) (c : String) (hw : String)
    (tm : ℚ) : Row :=
  { timestamp := some ⟨⟨y, m, d⟩, 0⟩, cidade := c, isHW := hw, tempMed := tm }

/-- A city-"A" heat-wave row whose timestamp failed to parse. -/
def naRow : Row := { timestamp := none, cidade := "A", isHW := "TRUE" }

/- ### Helper lemmas -/

theorem isSome_of_yearInRange {r : Row} {a b : Int}
    (h : yearInRange r a b = true) : r.timestamp.isSome = true := by
  cases ht : r.timestamp with
  | none => simp [yearInRange, rowYear, ht] at h
  | some t => simp [ht]

theorem isSome_of_yearEq {r : Row} {ano : Int}
    (h : yearEq r ano = true) : r.timestamp.isSome = true := by
  cases ht : r.timestamp with
  | none => simp [yearEq, rowYear, ht] at h
  | some t => simp [ht]

/-- Filtering by `p` makes a prior filter by any weaker predicate `q`
redundant. -/
theorem filter_filter_of_imp {α : Type} (p q : α → Bool) (l : List α)
    (h : ∀ x, p x = true → q x = true) :
    (l.filter q).filter p = l.filter p := by
  induction l with
  | nil => rfl
  | cons x l ih =>
    by_cases hq : q x = true
    · by_cases hp : p x = true
      · simp [List.filter_cons, hq, hp, ih]
      · simp [List.filter_cons, hq, hp, ih]
    · have hp : ¬ p x = true := fun hp => hq (h x hp)
      simp [List.filter_cons, hq, hp, ih]

theorem sortedUnique_perm {α : Type} [LinearOrder α] (l : List α) :
    List.Perm (sortedUnique l) l.dedup :=
  List.perm_insertionSort _ _

theorem mem_sortedUnique {α : Type} [LinearOrder α] {a : α} {l : List α} :
    a ∈ sortedUnique l ↔ a ∈ l :=
  ((sortedUnique_perm l).mem_iff).trans List.mem_dedup

theorem nodup_sortedUnique {α : Type} [LinearOrder α] (l : List α) :
    (sortedUnique l).Nodup :=
  ((sortedUnique_perm l).nodup_iff).mpr l.nodup_dedup

theorem sorted_le_sortedUnique {α : Type} [LinearOrder α] (l : List α) :
    (sortedUnique l).Pairwise (fun a b => a ≤ b) :=
  List.sorted_insertionSort _ _

theorem sorted_lt_sortedUnique {α : Type} [LinearOrder α] (l : List α) :
    (sortedUnique l).Pairwise (fun a b => a < b) :=
  ((sorted_le_sortedUnique l).and (nodup_sortedUnique l)).imp
    fun h => lt_of_le_of_ne h.1 h.2

theorem sum_map_add {α : Type} (f g : α → Nat) (l : List α) :
    (l.map fun x => f x + g x).sum = (l.map f).sum + (l.map g).sum := by
  induction l with
  | nil => rfl
  | cons x l ih => simp only [List.map_cons, List.sum_cons, ih]; omega

theorem sum_map_ite_length {α : Type} (p : α → Bool) (l : List α) :
    (l.map fun x => if p x then 1 else 0).sum = (l.filter p).length := by
  induction l with
  | nil => rfl
  | cons x l ih =>
    by_cases hp : p x = true
    · simp [List.filter_cons, hp, ih, Nat.add_comm]
    · simp [List.filter_cons, hp, ih]

theorem sum_map_one {α : Type} (l : List α) :
    (l.map fun _ => 1).sum = l.length := by
  induction l with
  | nil => rfl
  | cons x l ih => simp [ih, Nat.add_comm]

theorem beq_swap {κ : Type} [BEq κ] [LawfulBEq κ] (a b : κ) :
    (a == b) = (b == a) := by
  rw [Bool.eq_iff_iff, beq_iff_eq, beq_iff_eq]
  exact eq_comm

/-- Summing, over a list of keys, the number of elements of `l` carrying
each key, equals summing over `l` the multiplicity of each element's key
in the key list. -/
theorem sum_filter_key {α κ : Type} [BEq κ] [LawfulBEq κ] (K : List κ)
    (k : α → κ) (l : List α) :
    (K.map fun key => (l.filter fun x => k x == key).length).sum
      = (l.map fun x => K.count (k x)).sum := by
  induction K with
  | nil => simp
  | cons key K ih =>
    simp only [List.map_cons, List.sum_cons, ih]
    have h1 : (l.map fun x => (key :: K).count (k x)).sum
        = (l.map fun x => (if k x == key then 1 else 0) + K.count (k x)).sum := by
      apply congrArg
      apply List.map_congr_left
      intro x _
      rw [List.count_cons, beq_swap key (k x)]
      exact Nat.add_comm _ _
    rw [h1, sum_map_add, sum_map_ite_length]

/- ### C2 — calculate_anomalies -/

/-- C2: the anomaly output lists one record per year present in the
filtered subset, in strictly ascending year order; every record holds the
per-year mean of `tempMed` and its anomaly against the baseline, the mean
of `tempMed` over the entire filtered subset (not per year). -/
theorem anomalies_spec (df : List Row) (cidade : String) (a b : Int) :
    List.Sorted (fun x y => x < y)
      ((calculate_anomalies df cidade a b).map fun rec => rec.year) ∧
    (∀ y : Int,
      ((y ∈ (calculate_anomalies df cidade a b).map fun rec => rec.year) ↔
        ∃ r ∈ df.filter (fun r => r.cidade == cidade && yearInRange r a b),
          rowYear r = some y)) ∧
    (∀ rec ∈ calculate_anomalies df cidade a b,
      rec.tempMed = mean (((df.filter fun r =>
          r.cidade == cidade && yearInRange r a b).filter fun r =>
            yearEq r rec.year).map fun r => r.tempMed) ∧
      rec.anomalia = rec.tempMed
        - mean ((df.filter fun r =>
            r.cidade == cidade && yearInRange r a b).map fun r => r.tempMed)) := by
  have hmap : ((calculate_anomalies df cidade a b).map fun rec => rec.year)
      = sortedUnique ((df.filter fun r =>
          r.cidade == cidade && yearInRange r a b).filterMap rowYear) := by
    simp only [calculate_anomalies, List.map_map, Function.comp_def]
    refine (List.map_congr_left ?_).trans (List.map_id _)
    intro y _
    rfl
  refine ⟨?_, ?_, ?_⟩
  · rw [hmap]; exact sorted_lt_sortedUnique _
  · intro y
    rw [hmap, mem_sortedUnique, List.mem_filterMap]
  · intro rec hrec
    simp only [calculate_anomalies, List.mem_map] at hrec
    obtain ⟨y, hy, rfl⟩ := hrec
    exact ⟨rfl, rfl⟩

/- ### C1 — calculate_hw_monthly -/

theorem all_months_nodup : all_months.Nodup := by decide

theorem rowMonthName_mem {r : Row} (h : r.timestamp.isSome = true) :
    rowMonthName r ∈ all_months := by
  cases ht : r.timestamp with
  | none => rw [ht] at h; simp at h
  | some t =>
    simp only [rowMonthName, ht]
    exact List.get_mem _ _ _

/-- C1: the monthly heat-wave aggregation returns exactly 12 records whose
month names are the English calendar months in calendar order; each record
counts the rows matching the city and year with a true heat-wave flag that
fall in that month; and the counts total the number of heat-wave rows for
that city and year. -/
theorem hw_monthly_spec (df : List Row) (cidade : String) (ano : Int) :
    (calculate_hw_monthly df cidade ano).length = 12 ∧
    ((calculate_hw_monthly df cidade ano).map fun mc => mc.mes) = all_months ∧
    (∀ mc ∈ calculate_hw_monthly df cidade ano,
      mc.frequencia = ((df.filter fun r =>
          r.cidade == cidade && yearEq r ano && isHWRow r).filter fun r =>
            rowMonthName r == mc.mes).length) ∧
    ((calculate_hw_monthly df cidade ano).map fun mc => mc.frequencia).sum
      = (df.filter fun r =>
          r.cidade == cidade && yearEq r ano && isHWRow r).length := by
  refine ⟨?_, ?_, ?_, ?_⟩
  · simp only [calculate_hw_monthly, List.length_map]; rfl
  · simp only [calculate_hw_monthly, List.map_map, Function.comp_def]
    refine (List.map_congr_left ?_).trans (List.map_id _)
    intro m _
    rfl
  · intro mc hmc
    simp only [calculate_hw_monthly, List.mem_map] at hmc
    obtain ⟨m, _, rfl⟩ := hmc
    rfl
  · have hmap : ((calculate_hw_monthly df cidade ano).map fun mc => mc.frequencia)
        = all_months.map fun m => ((df.filter fun r =>
            r.cidade == cidade && yearEq r ano && isHWRow r).filter fun r =>
              rowMonthName r == m).length := by
      simp only [calculate_hw_monthly, List.map_map, Function.comp_def]
    rw [hmap, sum_filter_key all_months rowMonthName]
    have h1 : ∀ r ∈ (df.filter fun r =>
        r.cidade == cidade && yearEq r ano && isHWRow r),
        all_months.count (rowMonthName r) = 1 := by
      intro r hr
      have hmem := List.mem_filter.mp hr
      have h2 := hmem.2
      rw [Bool.and_eq_true, Bool.and_eq_true] at h2
      exact List.count_eq_one_of_mem all_months_nodup
        (rowMonthName_mem (isSome_of_yearEq h2.1.2))
    rw [List.map_congr_left h1, sum_map_one]

/- ### C3 — prepare_heatmap_data -/

theorem length_allPairs (cs : List String) (ys : List Int) :
    (allPairs cs ys).length = cs.length * ys.length := by
  induction cs with
  | nil => simp [allPairs]
  | cons c cs ih =>
    simp only [allPairs, List.length_append, List.length_map, ih,
      List.length_cons]
    ring

theorem mem_allPairs {cs : List String} {ys : List Int} {p : String × Int} :
    p ∈ allPairs cs ys ↔ p.1 ∈ cs ∧ p.2 ∈ ys := by
  obtain ⟨c', y'⟩ := p
  induction cs with
  | nil => simp [allPairs]
  | cons c cs ih =>
    simp only [allPairs, List.mem_append, List.mem_map, Prod.mk.injEq, ih,
      List.mem_cons]
    constructor
    · rintro (⟨y, hy, hc, hyeq⟩ | ⟨h1, h2⟩)
      · subst hc; subst hyeq; exact ⟨Or.inl rfl, hy⟩
      · exact ⟨Or.inr h1, h2⟩
    · rintro ⟨h1 | h1, h2⟩
      · subst h1; exact Or.inl ⟨y', h2, rfl, rfl⟩
      · exact Or.inr ⟨h1, h2⟩

theorem mem_intRange {y : Int} :
    ∀ (n : Nat) (s : Int), y ∈ intRange s n ↔ s ≤ y ∧ y < s + n := by
  intro n
  induction n with
  | zero => intro s; simp [intRange]
  | succ n ih =>
    intro s
    simp only [intRange, List.mem_cons, ih]
    omega

theorem spanYears_bounds {y : Int} :
    y ∈ spanYears ↔ 1981 ≤ y ∧ y ≤ 2023 := by
  rw [spanYears, mem_intRange]
  omega

theorem spanYears_nodup : spanYears.Nodup := by decide

theorem count_pair_map (c c' : String) (y : Int) (ys : List Int) :
    ((ys.map fun y' => (c', y')).count (c, y))
      = if c' = c then ys.count y else 0 := by
  induction ys with
  | nil => simp
  | cons y' ys ih =>
    simp only [List.map_cons, List.count_cons, ih]
    by_cases hc : c' = c
    · subst hc
      by_cases hy : y' = y
      · subst hy; simp
      · simp [hy, Prod.mk.injEq]
    · simp [hc, Prod.mk.injEq]

theorem count_allPairs (cs : List String) (ys : List Int) (c : String)
    (y : Int) :
    (allPairs cs ys).count (c, y) = cs.count c * ys.count y := by
  induction cs with
  | nil => simp [allPairs]
  | cons c' cs ih =>
    simp only [allPairs, List.count_append, ih, List.count_cons,
      count_pair_map]
    by_cases hc : c' = c
    · subst hc; simp; ring
    · simp [hc]

/-- The (city, year) key of a row, as grouped by
`groupby(["cidade", "year"])`; a missing year is sent to 1980, a value
outside the grid's span (a dropped NaN group key in pandas). -/
def keyOf (r : Row) : String × Int :=
  (r.cidade, match rowYear r with | some y => y | none => 1980)

theorem count_key_span (df : List Row) (r : Row) (hr : r ∈ df) :
    (allPairs (cidadesOf df) spanYears).count (keyOf r)
      = if yearInRange r 1981 2023 then 1 else 0 := by
  have hc : (cidadesOf df).count r.cidade = 1 :=
    List.count_eq_one_of_mem (nodup_sortedUnique _)
      (mem_sortedUnique.mpr (List.mem_map_of_mem _ hr))
  cases hy : rowYear r with
  | none =>
    have hfalse : yearInRange r 1981 2023 = false := by
      simp [yearInRange, hy]
    have hcount : spanYears.count (1980 : Int) = 0 :=
      List.count_eq_zero_of_not_mem
        (fun h => by have := spanYears_bounds.mp h; omega)
    simp only [keyOf, hy]
    rw [count_allPairs, hc, hcount]
    simp [hfalse]
  | some yv =>
    simp only [keyOf, hy]
    rw [count_allPairs, hc, one_mul]
    by_cases hin : 1981 ≤ yv ∧ yv ≤ 2023
    · have htrue : yearInRange r 1981 2023 = true := by
        simp [yearInRange, hy, hin.1, hin.2]
      rw [List.count_eq_one_of_mem spanYears_nodup (spanYears_bounds.mpr hin)]
      simp [htrue]
    · have hfalse : yearInRange r 1981 2023 = false := by
        rw [Bool.eq_false_iff]
        intro hcon
        simp only [yearInRange, hy, Bool.and_eq_true, decide_eq_true_eq] at hcon
        exact hin ⟨hcon.1, hcon.2⟩
      rw [List.count_eq_zero_of_not_mem (fun h => hin (spanYears_bounds.mp h))]
      simp [hfalse]

theorem filter_key_eq (df : List Row) (p : String × Int)
    (hp : p.2 ∈ spanYears) :
    ((df.filter fun r => isHWRow r).filter fun r =>
        r.cidade == p.1 && yearEq r p.2)
      = ((df.filter fun r => isHWRow r).filter fun r => keyOf r == p) := by
  apply List.filter_congr
  intro r _
  rw [Bool.eq_iff_iff]
  have hspan := spanYears_bounds.mp hp
  cases hy : rowYear r with
  | none =>
    simp only [Bool.and_eq_true, beq_iff_eq, yearEq, hy, keyOf]
    constructor
    · rintro ⟨_, h⟩; cases h
    · intro h
      have : (1980 : Int) = p.2 := congrArg Prod.snd h
      omega
  | some yv =>
    simp only [Bool.and_eq_true, beq_iff_eq, yearEq, hy, keyOf, Prod.ext_iff]

/-- C3: the heatmap grid has exactly `|cities| * 43` cells, keyed by the
full cross product of the known cities with the years 1981-2023 in order;
each cell counts the heat-wave rows of its (city, year), 0 when none
exist; and the cells total the number of heat-wave rows whose year lies in
the span. -/
theorem heatmap_spec (df : List Row) :
    (prepare_heatmap_data df).length = (cidadesOf df).length * 43 ∧
    ((prepare_heatmap_data df).map fun cell => (cell.cidade, cell.year))
      = allPairs (cidadesOf df) spanYears ∧
    (∀ cell ∈ prepare_heatmap_data df,
      cell.dias_hw = ((df.filter fun r => isHWRow r).filter fun r =>
        r.cidade == cell.cidade && yearEq r cell.year).length) ∧
    ((prepare_heatmap_data df).map fun cell => cell.dias_hw).sum
      = (df.filter fun r => isHWRow r && yearInRange r 1981 2023).length := by
  refine ⟨?_, ?_, ?_, ?_⟩
  · simp only [prepare_heatmap_data, List.length_map, length_allPairs]
    rfl
  · simp only [prepare_heatmap_data, List.map_map, Function.comp_def]
    refine (List.map_congr_left ?_).trans (List.map_id _)
    intro q _
    rfl
  · intro cell hcell
    simp only [prepare_heatmap_data, List.mem_map] at hcell
    obtain ⟨q, _, rfl⟩ := hcell
    rfl
  · have hmap : ((prepare_heatmap_data df).map fun cell => cell.dias_hw)
        = (allPairs (cidadesOf df) spanYears).map fun p =>
            ((df.filter fun r => isHWRow r).filter fun r =>
              keyOf r == p).length := by
      simp only [prepare_heatmap_data, List.map_map, Function.comp_def]
      apply List.map_congr_left
      intro p hp
      have hp2 : p.2 ∈ spanYears := (mem_allPairs.mp hp).2
      exact congrArg List.length (filter_key_eq df p hp2)
    rw [hmap, sum_filter_key]
    have h1 : ∀ r ∈ (df.filter fun r => isHWRow r),
        (allPairs (cidadesOf df) spanYears).count (keyOf r)
          = if yearInRange r 1981 2023 then 1 else 0 := by
      intro r hr
      exact count_key_span df r (List.mem_filter.mp hr).1
    rw [List.map_congr_left h1, sum_map_ite_length, List.filter_filter]
    exact congrArg List.length
      (List.filter_congr fun r _ => Bool.and_comm _ _)

/- ### C5 — dias_ondas_calor -/

/-- Chronological order on calendar dates. -/
def dateLE (a b : Date) : Prop :=
  a.y < b.y ∨ (a.y = b.y ∧
    ((a.m : Nat) < (b.m : Nat) ∨ (a.m = b.m ∧ a.d ≤ b.d)))

instance (a b : Date) : Decidable (dateLE a b) := by
  unfold dateLE
  infer_instance

/-- Chronological order lifted to possibly-missing dates: missing entries
are unconstrained. -/
def optDateLE (a b : Option Date) : Prop :=
  match a with
  | none => True
  | some x =>
    match b with
    | none => True
    | some y => dateLE x y

instance (a b : Option Date) : Decidable (optDateLE a b) :=
  match a with
  | none => isTrue trivial
  | some x =>
    match b with
    | none => isTrue trivial
    | some y => (inferInstance : Decidable (dateLE x y))

/-- Strengthening the filter predicate with an extra conjunct selects a
sublist of the original selection. -/
theorem filter_and_sublist {α : Type} (p q : α → Bool) (l : List α) :
    (l.filter fun x => p x && q x).Sublist (l.filter p) := by
  induction l with
  | nil => simp
  | cons x l ih =>
    by_cases hp : p x = true
    · by_cases hq : q x = true
      · have hpq : (p x && q x) = true := by simp [hp, hq]
        have e1 : (x :: l).filter p = x :: l.filter p := by
          simp [List.filter_cons, hp]
        have e2 : ((x :: l).filter fun x => p x && q x)
            = x :: (l.filter fun x => p x && q x) := by
          simp [List.filter_cons, hpq]
        rw [e1, e2]
        exact List.Sublist.cons₂ x ih
      · have hpq : (p x && q x) = false := by simp [hp, hq]
        have e1 : (x :: l).filter p = x :: l.filter p := by
          simp [List.filter_cons, hp]
        have e2 : ((x :: l).filter fun x => p x && q x)
            = l.filter fun x => p x && q x := by
          simp [List.filter_cons, hpq]
        rw [e1, e2]
        exact List.Sublist.cons x ih
    · have hpq : (p x && q x) = false := by simp [hp]
      have e1 : (x :: l).filter p = l.filter p := by
        simp [List.filter_cons, hp]
      have e2 : ((x :: l).filter fun x => p x && q x)
          = l.filter fun x => p x && q x := by
        simp [List.filter_cons, hpq]
      rw [e1, e2]
      exact ih

/-- C5: the heat-wave date list is exactly the date component (time of day
dropped) of the city's heat-wave rows in table order; each returned date
comes from a row of the city whose flag is true; and when the city's rows
are date-ordered, the output is chronologically non-decreasing. -/
theorem dias_spec (df : List Row) (cidade : String)
    (h : ((df.filter fun r => r.cidade == cidade).map dtDate).Pairwise
      optDateLE) :
    dias_ondas_calor df cidade
      = (df.filter fun r => r.cidade == cidade && isHWRow r).map dtDate ∧
    (∀ d : Date, some d ∈ dias_ondas_calor df cidade →
      ∃ r ∈ df, r.cidade = cidade ∧ isHWRow r = true ∧ dtDate r = some d) ∧
    (dias_ondas_calor df cidade).Pairwise optDateLE := by
  refine ⟨rfl, ?_, ?_⟩
  · intro d hd
    simp only [dias_ondas_calor, List.mem_map] at hd
    obtain ⟨r, hr, hdr⟩ := hd
    obtain ⟨hrdf, hpred⟩ := List.mem_filter.mp hr
    rw [Bool.and_eq_true] at hpred
    exact ⟨r, hrdf, beq_iff_eq.mp hpred.1, hpred.2, hdr⟩
  · have hsub := (filter_and_sublist (fun r => r.cidade == cidade)
      (fun r => isHWRow r) df).map dtDate
    exact h.sublist hsub

/-- Two date-ordered heat-wave rows of city "A". -/
def wRow1 : Row := exRow 2020 0 1 "A" "TRUE" 0

def wRow2 : Row := exRow 2020 0 2 "A" "TRUE" 0

/-- Witness for C5 on a concrete two-row table. -/
theorem dias_spec_witness :
    (dias_ondas_calor [wRow1, wRow2] "A").Pairwise optDateLE :=
  (dias_spec [wRow1, wRow2] "A" (by decide)).2.2

/- ### C10 — anomalies are not mean-centred -/

/-- City "A": two rows in 2000 (tempMed 0) and one row in 2001
(tempMed 3), so the row-weighted baseline is 1 while the mean of the
per-year means is 1.5. -/
def exDf10 : List Row :=
  [{ timestamp := some ⟨⟨2000, 0, 1⟩, 0⟩, cidade := "A", isHW := "FALSE",
     tempMed := 0 },
   { timestamp := some ⟨⟨2000, 0, 2⟩, 0⟩, cidade := "A", isHW := "FALSE",
     tempMed := 0 },
   { timestamp := some ⟨⟨2001, 0, 1⟩, 0⟩, cidade := "A", isHW := "FALSE",
     tempMed := 3 }]

/-- C10: with years of different row counts, the output anomalies of
`calculate_anomalies` need not sum to zero, because the baseline is the
row-weighted mean over the whole subset rather than the mean of the
per-year means. -/
theorem anomalies_sum_nonzero :
    ∃ (df : List Row) (cidade : String) (a b : Int),
      (df.filter fun r => r.cidade == cidade && yearEq r a).length ≠
        (df.filter fun r => r.cidade == cidade && yearEq r b).length ∧
      ((calculate_anomalies df cidade a b).map fun rec => rec.anomalia).sum
        ≠ 0 := by
  refine ⟨exDf10, "A", 2000, 2001, by decide, ?_⟩
  have key : calculate_anomalies exDf10 "A" 2000 2001
      = [⟨2000, mean [0, 0], mean [0, 0] - mean [0, 0, 3]⟩,
         ⟨2001, mean [3], mean [3] - mean [0, 0, 3]⟩] := by rfl
  rw [key]
  simp only [List.map_cons, List.map_nil, List.sum_cons, List.sum_nil]
  norm_num [mean, List.sum_cons, List.sum_nil, List.length_cons,
    List.length_nil]

/- ### C4 — heat-wave flag normalisation -/

/-- C4: the loader replaces the raw heat-wave flag with `str(x).upper()`,
and a row passes the `== "TRUE"` test that every aggregation filters on
exactly when that uppercased string form equals `"TRUE"` — one single rule
for textual, boolean and numeric encodings alike (so `True` is counted,
while numeric `1` is not). -/
theorem hw_flag_rule (raw : RawRow) :
    (loadRow raw).isHW = strUpper raw.isHW.toStr ∧
    (isHWRow (loadRow raw) = true ↔ strUpper raw.isHW.toStr = "TRUE") ∧
    isHWRow (loadRow { index := none, cidade := "A", isHW := PyVal.bool true })
      = true ∧
    isHWRow (loadRow { index := none, cidade := "A", isHW := PyVal.int 1 })
      = false := by
  refine ⟨rfl, ?_, by decide, by decide⟩
  simp [isHWRow, loadRow]

/- ### C9 — determinism / purity -/

/-- C9: the four aggregations are deterministic, stateless functions of
their arguments: the embedded table is an immutable value, no function
returns a modified table, and two invocations with identical arguments
give identical output. -/
theorem aggregations_pure (df : List Row) (cidade : String)
    (a b ano : Int) :
    calculate_anomalies df cidade a b = calculate_anomalies df cidade a b ∧
    calculate_hw_monthly df cidade ano = calculate_hw_monthly df cidade ano ∧
    dias_ondas_calor df cidade = dias_ondas_calor df cidade ∧
    prepare_heatmap_data df = prepare_heatmap_data df :=
  ⟨rfl, rfl, rfl, rfl⟩

/- ### C8 — loader failure behaviour -/

/-- C8 counterexample: on a readable resource with zero rows, `load_data`
does not fail — it returns an empty Observation Table. -/
theorem load_data_empty_ok :
    load_data (some []) = Except.ok ([] : List Row) ∧
    ∀ e : String, Except.ok ([] : List Row) ≠ Except.error e :=
  ⟨rfl, fun _ h => Except.noConfusion h⟩

/-- C8 amended: when the resource is unreadable the read error propagates
out of the loader (a startup failure); but when the resource merely has no
rows, `load_data` itself returns the empty table without any error, and
the startup failure only happens later, when the layout takes `min`/`max`
of the empty year list. -/
theorem load_data_failure_amended :
    load_data none = Except.error "read_excel failed" ∧
    load_data (some []) = Except.ok ([] : List Row) ∧
    sliderBounds (anosOf []) = none :=
  ⟨rfl, rfl, rfl⟩

/- ### C6 — unparseable timestamps -/

/-- C6 counterexample: a heat-wave row with a missing (unparseable)
timestamp is not excluded from `dias_ondas_calor` — it contributes a
missing-date entry to the output. -/
theorem dias_includes_missing_timestamp :
    naRow.timestamp = none ∧
    dias_ondas_calor [naRow] "A" = [none] ∧
    ([none] : List (Option Date)) ≠ [] :=
  ⟨rfl, rfl, by simp⟩

/-- C6 amended: rows with unparseable timestamps load as missing values
without raising, and such rows are excluded from `calculate_anomalies` and
`calculate_hw_monthly` (their year filters reject a missing year); but
`dias_ondas_calor` filters only on city and flag, so those rows still
produce (missing-date) entries there. -/
theorem missing_timestamp_amended (rows : List RawRow) (df : List Row)
    (cidade : String) (a b ano : Int) :
    load_data (some rows) = Except.ok (rows.map loadRow) ∧
    calculate_anomalies (df.filter fun r => r.timestamp.isSome) cidade a b
      = calculate_anomalies df cidade a b ∧
    calculate_hw_monthly (df.filter fun r => r.timestamp.isSome) cidade ano
      = calculate_hw_monthly df cidade ano := by
  refine ⟨rfl, ?_, ?_⟩
  · simp only [calculate_anomalies]
    rw [filter_filter_of_imp]
    intro x hx
    rw [Bool.and_eq_true] at hx
    exact isSome_of_yearInRange hx.2
  · simp only [calculate_hw_monthly]
    rw [filter_filter_of_imp]
    intro x hx
    rw [Bool.and_eq_true, Bool.and_eq_true] at hx
    exact isSome_of_yearEq hx.1.2

/- ### C7 — empty selections -/

/-- C7: a selection matching zero rows makes `calculate_anomalies` return
the empty sequence, `calculate_hw_monthly` a zero-filled 12-month list,
and `dias_ondas_calor` the empty list — no aggregation fails on an empty
selection. -/
theorem empty_selection_spec (df : List Row) (cidade : String)
    (a b ano : Int)
    (h1 : df.filter (fun r => r.cidade == cidade && yearInRange r a b) = [])
    (h2 : df.filter
      (fun r => r.cidade == cidade && yearEq r ano && isHWRow r) = [])
    (h3 : df.filter (fun r => r.cidade == cidade && isHWRow r) = []) :
    calculate_anomalies df cidade a b = [] ∧
    (calculate_hw_monthly df cidade ano).map (fun mc => mc.frequencia)
      = List.replicate 12 0 ∧
    dias_ondas_calor df cidade = [] := by
  refine ⟨?_, ?_, ?_⟩
  · simp only [calculate_anomalies, h1]; rfl
  · simp only [calculate_hw_monthly, h2]; rfl
  · simp only [dias_ondas_calor, h3]; rfl

/-- Witness for C7: the empty table. -/
theorem empty_selection_spec_witness :
    calculate_anomalies [] "Recife" 2000 2001 = [] ∧
    (calculate_hw_monthly [] "Recife" 2020).map (fun mc => mc.frequencia)
      = List.replicate 12 0 ∧
    dias_ondas_calor [] "Recife" = [] :=
  empty_selection_spec [] "Recife" 2000 2001 2020 rfl rfl rfl

end Dashboard
